import Mathlib

/-!
Shallow embedding of the WeaveEnv plugin lifecycle manager
(src/weaveenv/plugins.py and src/weaveenv/app.py).

External effects are made explicit:
  * the on-disk state is a list of existing directory paths (`FS`);
  * the outcome of the external collaborators (git clone, pip install,
    plugin readiness) is passed in as Boolean / numeric parameters;
  * Python exceptions are values of `PyErr`, and a method that can raise
    returns `Except PyErr A × State` (an `.error` result leaves the state
    exactly as it was at the point of the raise, matching the source where
    every raise happens before, or instead of, the corresponding mutation).
-/

namespace WeaveEnv

/-- Python exceptions that the embedded code can raise. -/
inductive PyErr where
  | valueError (msg : String)
  | keyError (key : String)
  | fileNotFoundError (path : String)
  | gitCommandError
  | runtimeError (msg : String)
deriving Repr, DecidableEq

/-- The directories that currently exist on disk (each entry one path). -/
abbrev FS := List String

/-- os.path.join for the two-component joins used by plugins.py. -/
def joinPath (a b : String) : String := a ++ "/" ++ b

/-- os.path.isdir. -/
def isdir (fs : FS) (p : String) : Bool := fs.contains p

/-- Python `not token.strip()`: true exactly when the string strips to empty,
i.e. every character is whitespace.  Stated over the character list so that
it evaluates by kernel reduction. -/
def stripsToEmpty (s : String) : Bool := s.data.all Char.isWhitespace

/-- Python `'.' in s`, stated over the character list. -/
def containsDot (s : String) : Bool := s.data.contains '.'

/-- shutil.rmtree: removes the directory, raising FileNotFoundError when the
path does not exist (no `ignore_errors` is passed anywhere in the source). -/
def rmtree (fs : FS) (p : String) : Except PyErr Unit × FS :=
  if fs.contains p then (.ok (), fs.erase p)
  else (.error (.fileNotFoundError p), fs)

/-- get_plugin_id: md5 hex digest of the url.  The digest is modelled as an
injective tagging of the url; no claim depends on the digest value itself. -/
def get_plugin_id (url : String) : String := "md5:" ++ url

/-- VirtualEnvManager (plugins.py line 43): holds the venv path. -/
structure VirtualEnvManager where
  venv_home : String
deriving Repr, DecidableEq

/-- VirtualEnvManager.install (lines 47-62): returns True at once when the
venv directory already exists; otherwise creates the environment and, when a
requirements file was given, runs pip; a pip failure returns False with the
freshly created environment directory left on disk.  `hasRequirements` is
whether a requirements file was passed, `pipOk` the outcome of the pip
subprocess. -/
def VirtualEnvManager.install (v : VirtualEnvManager) (hasRequirements pipOk : Bool)
    (fs : FS) : Bool × FS :=
  if fs.contains v.venv_home then (true, fs)
  else
    let fs1 := v.venv_home :: fs
    if hasRequirements && !pipOk then (false, fs1) else (true, fs1)

/-- VirtualEnvManager.clean (lines 68-69): an unguarded shutil.rmtree of the
venv directory. -/
def VirtualEnvManager.clean (v : VirtualEnvManager) (fs : FS) : Except PyErr Unit × FS :=
  rmtree fs v.venv_home

/-- InstalledPlugin (plugins.py line 87): a plugin source tree on disk. -/
structure InstalledPlugin where
  src : String
deriving Repr, DecidableEq

/-- InstalledPlugin.is_installed (lines 94-95). -/
def InstalledPlugin.is_installed (p : InstalledPlugin) (fs : FS) : Bool :=
  isdir fs p.src

/-- InstalledPlugin.clean (lines 97-99): rmtree guarded by an isdir check, so
it never raises. -/
def InstalledPlugin.clean (p : InstalledPlugin) (fs : FS) : FS :=
  if isdir fs p.src then fs.erase p.src else fs

/-- GitPlugin.clone (lines 114-122): removes a stale copy of the clone
destination when present, then clones; `fetchOk` is the outcome of
git.Repo.clone_from, which on failure leaves no destination directory.
`uid` is the GitPlugin's unique_id (get_plugin_id of the clone url). -/
def GitPlugin.clone (uid base : String) (fetchOk : Bool) (fs : FS) :
    Except PyErr InstalledPlugin × FS :=
  let loc := joinPath base uid
  let fs1 := if isdir fs loc then fs.erase loc else fs
  if fetchOk then (.ok ⟨loc⟩, loc :: fs1)
  else (.error .gitCommandError, fs1)

/-- PluginInstallManager (plugins.py line 141): the two root directories. -/
structure PluginInstallManager where
  plugin_dir : String
  venv_dir : String
deriving Repr, DecidableEq

/-- PluginInstallManager.is_installed (lines 147-150).  The source computes
`venv_dir = os.path.join(self.plugin_dir, plugin_id)` — joining under
`self.plugin_dir`, not `self.venv_dir` — so both conjuncts test the same
path. -/
def PluginInstallManager.is_installed (m : PluginInstallManager) (plugin_id : String)
    (fs : FS) : Bool :=
  let plugin_path := joinPath m.plugin_dir plugin_id
  let venv_path := joinPath m.plugin_dir plugin_id
  isdir fs plugin_path && isdir fs venv_path

/-- PluginInstallManager.uninstall (lines 175-177): InstalledPlugin.clean on
the source directory (guarded), then VirtualEnvManager.clean on the venv
directory (unguarded rmtree, so it raises when the venv directory is
absent). -/
def PluginInstallManager.uninstall (m : PluginInstallManager) (plugin_id : String)
    (fs : FS) : Except PyErr Unit × FS :=
  let fs1 := InstalledPlugin.clean ⟨joinPath m.plugin_dir plugin_id⟩ fs
  VirtualEnvManager.clean ⟨joinPath m.venv_dir plugin_id⟩ fs1

/-- PluginInstallManager.venv_exists (lines 182-184). -/
def PluginInstallManager.venv_exists (m : PluginInstallManager) (plugin_id : String)
    (fs : FS) : Bool :=
  isdir fs (joinPath m.venv_dir plugin_id)

/-- The plugin manifest (plugin.json): required `service`, optional `deps`,
`config` and `start_timeout`.  `service = none` models a plugin.json without
the required field (a KeyError on access in the source). -/
structure Manifest where
  service : Option String := none
  deps : Option String := none
  config : List (String × String) := []
  start_timeout : Option Nat := none
deriving Repr, DecidableEq

/-- Outcome of opening and json-parsing plugin.json in PluginInfoFilter. -/
inductive ManifestRead where
  | ioError
  | parseError
  | ok (m : Manifest)
deriving Repr, DecidableEq

/-- Outcome of `getattr(importlib.import_module(mod), cls)` on the manifest's
service reference. -/
inductive LoadOutcome where
  | attrError
  | importError
  | loaded (cls : String)
deriving Repr, DecidableEq

/-- The plugin descriptor / state dictionary that flows through the filters
and the facade.  Optional fields model dictionary keys that may be absent
(`none` = key not present). -/
structure Obj where
  id : String := ""
  name : String := ""
  url : String := ""
  installed : Bool := false
  install_path : Option String := none
  enabled : Bool := false
  active : Bool := false
  errors : List String := []
  deps : Option String := none
  package_path : Option String := none
  config : List (String × String) := []
  start_timeout : Option Nat := none
  service_cls : Option String := none
  cls : Option String := none
deriving Repr, DecidableEq

/-- PluginInstallManager.install (lines 152-173): clone the git repo, then
provision a virtualenv keyed by the descriptor's id; any exception in the try
block runs `self.uninstall(plugin_info["id"])` and returns None — but an
exception raised by that uninstall itself propagates to the caller.
`hasRequirements` is whether the cloned tree has a requirements.txt, `pipOk`
the pip outcome, `fetchOk` the clone outcome. -/
def PluginInstallManager.install (m : PluginInstallManager) (info : Obj)
    (fetchOk hasRequirements pipOk : Bool) (fs : FS) :
    Except PyErr (Option InstalledPlugin) × FS :=
  let venv : VirtualEnvManager := ⟨joinPath m.venv_dir info.id⟩
  match GitPlugin.clone (get_plugin_id info.url) m.plugin_dir fetchOk fs with
  | (.error _, fs1) =>
    match m.uninstall info.id fs1 with
    | (.ok _, fs2) => (.ok none, fs2)
    | (.error e, fs2) => (.error e, fs2)
  | (.ok plugin, fs1) =>
    let (ok, fs2) := venv.install hasRequirements pipOk fs1
    if ok then (.ok (some plugin), fs2)
    else
      match m.uninstall info.id fs2 with
      | (.ok _, fs3) => (.ok none, fs3)
      | (.error e, fs3) => (.error e, fs3)

/-- One persisted execution record (database row): enabled flag plus the
app_secret_token (None until first set). -/
structure PluginData where
  enabled : Bool
  app_secret_token : Option String
deriving Repr, DecidableEq

/-- The persisted store, keyed by plugin id. -/
abbrev Database := List (String × PluginData)

/-- database.query: raises ValueError when no record exists for the id (the
callers in PluginExecutionManager catch exactly ValueError). -/
def Database.query (db : Database) (plugin_id : String) : Except PyErr PluginData :=
  match db.lookup plugin_id with
  | some d => .ok d
  | none => .error (.valueError "Not found.")

/-- plugin_data.save: writes the (mutated) record back under its id. -/
def Database.save (db : Database) (plugin_id : String) (d : PluginData) : Database :=
  db.map (fun kv => if kv.1 = plugin_id then (plugin_id, d) else kv)

/-- The state owned by PluginExecutionManager (plugins.py line 187): the
persisted database and the in-memory active set (the keys of the
`active_plugins` dict; the mapped service handles carry no further state
observable by the claims).  The manager's plugin_dir / venv_dir strings only
feed the service constructor and are kept out of the state. -/
structure ExecState where
  db : Database
  active : List String
deriving Repr, DecidableEq

namespace PluginExecutionManager

/-- PluginExecutionManager.get_plugin_data (lines 272-273). -/
def get_plugin_data (st : ExecState) (plugin_id : String) : Except PyErr PluginData :=
  st.db.query plugin_id

/-- PluginExecutionManager.is_enabled (lines 194-200): record exists, enabled
flag set, and a non-None, non-empty token. -/
def is_enabled (st : ExecState) (plugin_id : String) : Bool :=
  match st.db.lookup plugin_id with
  | none => false
  | some d =>
    d.enabled &&
      (match d.app_secret_token with
       | none => false
       | some t => decide (0 < t.length))

/-- PluginExecutionManager.enable (lines 202-212). -/
def enable (st : ExecState) (plugin_id : String) : Bool × ExecState :=
  match st.db.lookup plugin_id with
  | none => (false, st)
  | some d =>
    if d.enabled then (true, st)
    else (true, { st with db := st.db.save plugin_id { d with enabled := true } })

/-- PluginExecutionManager.disable (lines 214-224): flips the persisted flag
without consulting the active set. -/
def disable (st : ExecState) (plugin_id : String) : Bool × ExecState :=
  match st.db.lookup plugin_id with
  | none => (false, st)
  | some d =>
    if d.enabled then
      (true, { st with db := st.db.save plugin_id { d with enabled := false } })
    else (true, st)

/-- PluginExecutionManager.is_active (lines 226-227): membership in the
active_plugins dict. -/
def is_active (st : ExecState) (plugin_id : String) : Bool :=
  decide (plugin_id ∈ st.active)

/-- run_plugin (plugins.py lines 31-36): service_start, then
wait_for_start(timeout); on timeout it calls service_stop and returns False.
The service's behaviour is abstracted by `readyBy`: the time at which its
ready signal fires (`none` = never). -/
def run_plugin (readyBy : Option Nat) (timeout : Nat) : Bool :=
  match readyBy with
  | some t => decide (t ≤ timeout)
  | none => false

/-- PluginExecutionManager.activate (lines 229-248): rejects a non-enabled
plugin, no-ops when already active, looks up the descriptor's "cls" key
(KeyError when absent), constructs the service and calls
`run_plugin(service, timeout=30)` — the timeout is the literal 30, the
manifest's start_timeout is not read (the source carries a TODO to that
effect) — raising on start failure and recording the handle on success. -/
def activate (st : ExecState) (info : Obj) (readyBy : Option Nat) :
    Except PyErr Bool × ExecState :=
  let plugin_id := info.id
  if is_enabled st plugin_id = false then
    (.error (.valueError "Plugin is not enabled."), st)
  else if is_active st plugin_id = true then (.ok true, st)
  else
    match get_plugin_data st plugin_id with
    | .error e => (.error e, st)
    | .ok _ =>
      match info.cls with
      | none => (.error (.keyError "cls"), st)
      | some _ =>
        if run_plugin readyBy 30 then
          (.ok true, { st with active := plugin_id :: st.active })
        else (.error (.valueError "Unable to start plugin."), st)

/-- PluginExecutionManager.deactivate (lines 250-258): raises when the id is
not in the active set; otherwise calls stop_plugin on the handle and returns
True.  No statement removes the id from active_plugins.  `stopOk` is whether
service_stop returns normally (an exception from it propagates). -/
def deactivate (st : ExecState) (plugin_id : String) (stopOk : Bool) :
    Except PyErr Bool × ExecState :=
  if is_active st plugin_id = false then
    (.error (.valueError "Plugin is not active."), st)
  else if stopOk then (.ok true, st)
  else (.error (.runtimeError "service_stop raised"), st)

/-- PluginExecutionManager.update_token (lines 260-270): rejects a token that
strips to empty before touching the database; otherwise resolves the record
(ValueError when missing) and persists the new token. -/
def update_token (st : ExecState) (plugin_id token : String) :
    Except PyErr Bool × ExecState :=
  if stripsToEmpty token then (.error (.valueError "Invalid token."), st)
  else
    match st.db.lookup plugin_id with
    | none => (.error (.valueError "Unable to find plugin."), st)
    | some d =>
      (.ok true,
       { st with db := st.db.save plugin_id { d with app_secret_token := some token } })

end PluginExecutionManager

/-- PluginInfoFilter.filter (plugins.py lines 312-359).  Returns the object
unchanged when not installed.  An IOError opening plugin.json or a ValueError
parsing it only logs a warning and returns (nothing is appended to errors);
likewise a `service` value with no dot.  A missing `service` key (KeyError),
an AttributeError or an ImportError during entry-point resolution append a
message to errors.  On success the resolved class is stored under
`service_cls` (the `cls` key is never written). -/
def PluginInfoFilter.filter (read : ManifestRead) (load : LoadOutcome) (obj : Obj) : Obj :=
  if obj.installed = false then obj
  else
    match read with
    | .ioError => obj
    | .parseError => obj
    | .ok m =>
      match m.service with
      | none =>
        { obj with
          errors := obj.errors ++
            ["Required field not found in plugin.json for " ++ obj.name] }
      | some s =>
        if containsDot s = false then obj
        else
          match load with
          | .attrError =>
            { obj with
              errors := obj.errors ++
                ["Possibly bad service specification in plugin.json"] }
          | .importError =>
            { obj with
              errors := obj.errors ++ ["Failed to import dependencies for " ++ obj.name] }
          | .loaded c =>
            { obj with
              deps := m.deps
              package_path := some s
              config := m.config
              start_timeout := some (m.start_timeout.getD 30)
              service_cls := some c }

/-! Concrete fixtures used to evaluate the model. -/

/-- An install manager rooted at the usual `plugins` and `venv` directories. -/
def mgrX : PluginInstallManager := ⟨"plugins", "venv"⟩

/-- A registry descriptor for plugin id `p1` with source url `u`. -/
def descU : Obj := { id := "p1", url := "u" }

/-- Execution state before any operation: one persisted record for `p1`,
disabled, no token, empty active set. -/
def stFresh : ExecState := { db := [("p1", ⟨false, none⟩)], active := [] }

/-- State after `enable stFresh "p1"`. -/
def stEn : ExecState := { db := [("p1", ⟨true, none⟩)], active := [] }

/-- State after `update_token stEn "p1" "tok"`. -/
def stTok : ExecState := { db := [("p1", ⟨true, some "tok"⟩)], active := [] }

/-- State after a successful `activate` of `p1` from `stTok`. -/
def stAct : ExecState := { db := [("p1", ⟨true, some "tok"⟩)], active := ["p1"] }

/-- State after `disable stAct "p1"`. -/
def stDis : ExecState := { db := [("p1", ⟨false, some "tok"⟩)], active := ["p1"] }

/-- A descriptor for `p1` carrying a resolvable `cls` entry. -/
def svcObj : Obj := { id := "p1", name := "P", cls := some "Service" }

/-- Like `svcObj` but with a manifest-declared start_timeout of 5. -/
def timeoutObj : Obj :=
  { id := "p1", name := "P", cls := some "Service", start_timeout := some 5 }

/-- An installed plugin state object with a broken manifest scenario. -/
def brokenObj : Obj := { id := "p2", name := "Broken", installed := true }

end WeaveEnv

namespace WeaveEnv

open PluginExecutionManager

/-- Claim C1: the spec asserts `is_active(id) ⇒ is_enabled(id)` at every
observed time; in the source, `disable` flips the persisted flag without
consulting the active set, so the operation sequence enable, update_token,
activate, disable on `p1` reaches a state where `p1` is active but not
enabled — the code violates the claimed invariant. -/
theorem disable_leaves_active_not_enabled :
    enable stFresh "p1" = (true, stEn) ∧
    update_token stEn "p1" "tok" = (.ok true, stTok) ∧
    activate stTok svcObj (some 0) = (.ok true, stAct) ∧
    disable stAct "p1" = (true, stDis) ∧
    is_active stDis "p1" = true ∧
    is_enabled stDis "p1" = false :=
  ⟨rfl, rfl, rfl, rfl, rfl, rfl⟩

/-- Claim C2: the spec asserts that a successful `deactivate` removes the id
from the active set unconditionally; in the source, `deactivate` stops the
service and returns True but never deletes the entry from `active_plugins`,
so `is_active` stays true after a successful deactivate. -/
theorem deactivate_keeps_handle_in_active_set :
    deactivate stAct "p1" true = (.ok true, stAct) ∧
    is_active stAct "p1" = true :=
  ⟨rfl, rfl⟩

/-- Claim C3: the spec asserts install is all-or-nothing, rolling back and
returning a single wrapped failure; in the source, when the fetch (clone)
step fails on a state with no venv directory, the rollback call
`self.uninstall(id)` itself raises FileNotFoundError (unguarded rmtree of
the absent venv directory) and that exception propagates to install's
caller instead of the wrapped failure. -/
theorem install_fetch_failure_rollback_raises :
    PluginInstallManager.install mgrX descU false false false [] =
      (.error (.fileNotFoundError (joinPath "venv" "p1")), []) :=
  rfl

/-- Claim C4: the spec asserts `uninstall` is idempotent and never fails the
caller; in the source, a first uninstall on a fully installed `p1` succeeds
and removes both directories, but the immediate second call raises
FileNotFoundError because `VirtualEnvManager.clean` is an unguarded rmtree
of the now-absent venv directory. -/
theorem uninstall_raises_when_venv_absent :
    PluginInstallManager.uninstall mgrX "p1"
        [joinPath "plugins" "p1", joinPath "venv" "p1"] = (.ok (), []) ∧
    PluginInstallManager.uninstall mgrX "p1" [] =
      (.error (.fileNotFoundError (joinPath "venv" "p1")), []) :=
  ⟨rfl, rfl⟩

/-- Claim C5: the spec asserts `is_installed(id)` is true iff both the
source directory and the environment directory exist; in the source, line
149 joins the venv path under `self.plugin_dir` instead of `self.venv_dir`,
so on a disk holding only `plugins/p1` (no venv) `is_installed` returns
true while the venv directory is absent (as `venv_exists`, which joins
correctly, shows). -/
theorem is_installed_ignores_venv_dir :
    PluginInstallManager.is_installed mgrX "p1" [joinPath "plugins" "p1"] = true ∧
    PluginInstallManager.venv_exists mgrX "p1" [joinPath "plugins" "p1"] = false :=
  ⟨rfl, rfl⟩

/-- Claim C6: the spec asserts every resolution failure is appended to
`errors[]` and never thrown past the projection; in the source,
PluginInfoFilter logs a warning and returns the object untouched — with
`errors[]` left empty — when plugin.json cannot be opened, when it cannot
be parsed, and when the `service` value has no dot. -/
theorem resolution_failures_not_in_errors :
    (PluginInfoFilter.filter .ioError (.loaded "C") brokenObj).errors = [] ∧
    (PluginInfoFilter.filter .parseError (.loaded "C") brokenObj).errors = [] ∧
    (PluginInfoFilter.filter (.ok { service := some "nodot" }) (.loaded "C")
        brokenObj).errors = [] :=
  ⟨rfl, rfl, rfl⟩

/-- Claim C7: the spec asserts activate blocks up to the manifest-declared
start_timeout (default 30); in the source, `run_plugin(service, timeout=30)`
hardcodes 30 (a TODO notes the manifest read is unimplemented), so a plugin
whose manifest declares start_timeout 5 and whose ready signal fires at 20
activates successfully, although waiting only the declared 5 would have
timed out. -/
theorem activate_ignores_manifest_timeout :
    timeoutObj.start_timeout = some 5 ∧
    run_plugin (some 20) 5 = false ∧
    activate stTok timeoutObj (some 20) = (.ok true, stAct) :=
  ⟨rfl, rfl, rfl⟩

/-- `is_enabled` only consults the persisted database, never the active
set. -/
lemma is_enabled_set_active (st : ExecState) (x : List String) (plugin_id : String) :
    is_enabled { st with active := x } plugin_id = is_enabled st plugin_id :=
  rfl

/-- An enabled plugin has a persisted record. -/
lemma lookup_isSome_of_enabled (st : ExecState) (plugin_id : String)
    (h : is_enabled st plugin_id = true) :
    ∃ d, st.db.lookup plugin_id = some d := by
  revert h
  unfold is_enabled
  cases st.db.lookup plugin_id with
  | none => simp
  | some d => exact fun _ => ⟨d, rfl⟩

/-- Claim C8: `update_token` rejects a blank or whitespace-only token with
ValueError before touching the database, leaving the state — and thus the
persisted record's enabled flag and stored token — unchanged, while a
non-blank token is persisted onto the existing record. -/
theorem update_token_blank_rejected (st : ExecState) (plugin_id token : String) :
    (stripsToEmpty token = true →
      update_token st plugin_id token = (.error (.valueError "Invalid token."), st)) ∧
    (stripsToEmpty token = false → ∀ d, st.db.lookup plugin_id = some d →
      update_token st plugin_id token =
        (.ok true,
         { st with db := st.db.save plugin_id { d with app_secret_token := some token } })) := by
  constructor
  · intro h
    simp [update_token, h]
  · intro h d hd
    simp [update_token, h, hd]

/-- Claim C8 witness: a two-space token is rejected with the state intact,
and the token "tok" is persisted. -/
theorem update_token_blank_rejected_witness :
    update_token stEn "p1" "  " = (.error (.valueError "Invalid token."), stEn) ∧
    update_token stEn "p1" "tok" = (.ok true, stTok) :=
  ⟨(update_token_blank_rejected stEn "p1" "  ").1 rfl,
   (update_token_blank_rejected stEn "p1" "tok").2 rfl ⟨true, none⟩ rfl⟩

/-- Claim C9: `activate` is idempotent on an already-active plugin — when a
first activate from a non-active state succeeds, a second activate returns
success unchanged, whatever the readiness behaviour of a would-be second
start (no new capability is constructed or started), and the active set
holds exactly one entry for the id. -/
theorem activate_idempotent (st : ExecState) (info : Obj) (r r2 : Option Nat)
    (b : Bool) (st2 : ExecState)
    (hna : is_active st info.id = false)
    (h : activate st info r = (.ok b, st2)) :
    activate st2 info r2 = (.ok true, st2) ∧ st2.active.count info.id = 1 := by
  cases hen : is_enabled st info.id with
  | false =>
    rw [activate] at h
    simp [hen] at h
  | true =>
    obtain ⟨d, hd⟩ := lookup_isSome_of_enabled st info.id hen
    rw [activate] at h
    simp [hen, hna, get_plugin_data, Database.query, hd] at h
    cases hc : info.cls with
    | none => simp [hc] at h
    | some c =>
      simp [hc] at h
      cases hr : run_plugin r 30 with
      | false => simp [hr] at h
      | true =>
        simp [hr] at h
        obtain ⟨hb, hst⟩ := h
        subst hst
        have hmem : info.id ∉ st.active := by
          simpa [is_active] using hna
        constructor
        · rw [activate]
          simp [is_enabled_set_active, hen, is_active]
        · simp [List.count_cons_self, List.count_eq_zero.mpr hmem]

/-- Claim C9 witness: activating `p1` from `stTok` succeeds, and the second
activate on the resulting state succeeds with the state unchanged and one
active entry. -/
theorem activate_idempotent_witness :
    activate stAct svcObj (some 5) = (.ok true, stAct) ∧
    stAct.active.count svcObj.id = 1 :=
  activate_idempotent stTok svcObj (some 0) (some 5) true stAct rfl rfl

/-- Claim C10: PluginInfoFilter stores the resolved entry-point class under
`service_cls` and never writes `cls`; `activate` reads `cls`, so for any
descriptor coming out of the projection (cls absent) for an enabled,
not-yet-active plugin, activate raises KeyError on "cls" — for every
readiness behaviour, i.e. before any start attempt — leaving the state
unchanged. -/
theorem projection_activate_key_mismatch (obj : Obj) (st : ExecState) (r : Option Nat)
    (m : Manifest) (s c : String)
    (hinst : obj.installed = true) (hcls : obj.cls = none)
    (hsvc : m.service = some s) (hdot : containsDot s = true)
    (hen : is_enabled st obj.id = true) (hact : is_active st obj.id = false) :
    (PluginInfoFilter.filter (.ok m) (.loaded c) obj).service_cls = some c ∧
    (PluginInfoFilter.filter (.ok m) (.loaded c) obj).cls = none ∧
    activate st (PluginInfoFilter.filter (.ok m) (.loaded c) obj) r =
      (.error (.keyError "cls"), st) := by
  have hfilt : PluginInfoFilter.filter (.ok m) (.loaded c) obj =
      { obj with
        deps := m.deps
        package_path := some s
        config := m.config
        start_timeout := some (m.start_timeout.getD 30)
        service_cls := some c } := by
    simp [PluginInfoFilter.filter, hinst, hsvc, hdot]
  obtain ⟨d, hd⟩ := lookup_isSome_of_enabled st obj.id hen
  refine ⟨by rw [hfilt], by rw [hfilt]; exact hcls, ?_⟩
  rw [hfilt, activate]
  simp [hen, hact, get_plugin_data, Database.query, hd, hcls]

/-- Claim C10 witness: the concrete enabled, not-active plugin `p2` with a
well-formed manifest resolving to class "C": the projection stores the class
under service_cls, and activate fails with KeyError "cls". -/
theorem projection_activate_key_mismatch_witness :
    (PluginInfoFilter.filter (.ok { service := some "a.B" }) (.loaded "C")
        brokenObj).service_cls = some "C" ∧
    (PluginInfoFilter.filter (.ok { service := some "a.B" }) (.loaded "C")
        brokenObj).cls = none ∧
    activate { db := [("p2", ⟨true, some "t"⟩)], active := [] }
        (PluginInfoFilter.filter (.ok { service := some "a.B" }) (.loaded "C") brokenObj)
        (some 0) =
      (.error (.keyError "cls"), { db := [("p2", ⟨true, some "t"⟩)], active := [] }) :=
  projection_activate_key_mismatch brokenObj
    { db := [("p2", ⟨true, some "t"⟩)], active := [] } (some 0)
    { service := some "a.B" } "a.B" "C" rfl rfl rfl rfl rfl rfl

end WeaveEnv
